import Mathlib

/-!
Verification of the gox message dispatch core (eventrouter + messaging/cqrs bus)
against its specification.

Shallow embedding notes:
* `message.Message` is modelled as `Message` (uuid, payload bytes, string metadata).
  Go handlers mutate the message through a pointer and return only an error; a
  handler is therefore modelled as `Message → Option Err × Message`, the second
  component being the (possibly mutated) message after the call.
* Structured logging (`slog`, `logger.Info`) is instrumentation-only per the spec
  (§6 "Instrumentation-only outputs"); where a function's only other effect is
  logging, the log lines are modelled as an explicit `List String` output.
* The wrapped Watermill router and cqrs components are external code whose source
  is not part of this repository; their boundary behaviour is modelled from the
  spec (definitions marked "Modelled from the spec").
-/

/-- Message envelope as used by the wrappers (watermill `message.Message`):
identity, opaque payload bytes, string-keyed metadata. -/
structure Message where
  uuid : String
  payload : List Nat
  metadata : List (String × String)
deriving DecidableEq, Repr

/-- Metadata.Set: store `v` under key `k`, overwriting any previous entry. -/
def metadataSet (md : List (String × String)) (k v : String) :
    List (String × String) :=
  md.filter (fun p => !(p.1 == k)) ++ [(k, v)]

/-- Metadata.Get: look up the value stored under key `k`. -/
def metadataGet (md : List (String × String)) (k : String) : Option String :=
  (md.find? (fun p => p.1 == k)).map (fun p => p.2)

/-- Error codes of the syserr package (only the ones this development needs). -/
inductive ErrCode
  | invalidArgumentCode
  | internalCode
deriving DecidableEq, Repr

/-- Modelled from the spec: the structured error of the `syserr` package (whose
source is not under src/) — an error code plus a message (stack traces and
metadata fields elided). -/
structure Err where
  code : ErrCode
  msg : String
deriving DecidableEq, Repr

/-- syserr.New: build a structured error from a code and a message. -/
def syserrNew (c : ErrCode) (m : String) : Err := ⟨c, m⟩

/-- syserr.WrapAsIs: wrap an error with an additional message, keeping its code. -/
def syserrWrapAsIs (e : Err) (m : String) : Err := ⟨e.code, m ++ ": " ++ e.msg⟩

/-- Lifecycle states of the wrapped Watermill router (spec §4.6: Created →
Running → Closed, Closed terminal; Configured is not observable at this
boundary and is folded into Created). -/
inductive WMLifecycle
  | created
  | running
  | closed
deriving DecidableEq, Repr

/-- Relay handler registration record held by the wrapped router. -/
structure WMHandler where
  name : String
  subscribeTopic : String
  publishTopic : Option String
deriving DecidableEq, Repr

/-- Modelled from the spec: observable state of the wrapped Watermill
`message.Router` — registrations, middleware chain and plugin list (middleware
and plugins identified by opaque ids), and the lifecycle state. -/
structure WMRouter where
  handlers : List WMHandler
  middlewares : List Nat
  plugins : List Nat
  lifecycle : WMLifecycle
deriving DecidableEq, Repr

/-- router.IsRunning: true exactly in the Running lifecycle state. -/
def WMRouter.isRunning (r : WMRouter) : Bool :=
  r.lifecycle == WMLifecycle.running

/-- Modelled from the spec: Watermill router.AddHandler appends a registration
(spec §3: `registrations` is append-only). -/
def wmAddHandler (r : WMRouter) (h : WMHandler) : WMRouter :=
  { r with handlers := r.handlers ++ [h] }

/-- Modelled from the spec: Watermill router.AddNoPublisherHandler appends a
consumer-only registration (no publish topic). -/
def wmAddNoPublisherHandler (r : WMRouter) (name subscribeTopic : String) :
    WMRouter :=
  { r with handlers := r.handlers ++ [⟨name, subscribeTopic, none⟩] }

/-- Modelled from the spec: Watermill router.AddMiddleware appends to the
ordered middleware chain (spec §3: `middleware` is append-only). -/
def wmAddMiddleware (r : WMRouter) (mw : Nat) : WMRouter :=
  { r with middlewares := r.middlewares ++ [mw] }

/-- Modelled from the spec: Watermill router.AddPlugin appends to the plugin
list. -/
def wmAddPlugin (r : WMRouter) (pl : Nat) : WMRouter :=
  { r with plugins := r.plugins ++ [pl] }

/-- Modelled from the spec: Watermill router.Run — rejected with a
terminal-state error on a closed instance and on an already-running instance
(spec §4.6/§7); otherwise the router enters the Running state (the blocking
behaviour until cancellation is outside this untimed model). -/
def wmRun (r : WMRouter) : WMRouter × Option Err :=
  if r.lifecycle = WMLifecycle.closed then
    (r, some (syserrNew ErrCode.internalCode "cannot run closed router"))
  else if r.lifecycle = WMLifecycle.running then
    (r, some (syserrNew ErrCode.internalCode "router is already running"))
  else
    ({ r with lifecycle := WMLifecycle.running }, none)

/-- Modelled from the spec: Watermill router.Close — transitions to the
terminal Closed state releasing consumption resources; calling it before Run is
a no-op that returns without error (spec §4.6; close-timeout reporting is
outside this untimed model). -/
def wmClose (r : WMRouter) : WMRouter × Option Err :=
  ({ r with lifecycle := WMLifecycle.closed }, none)

/-- messageRouter from eventrouter/router.go: wraps a Watermill router (the
`logger` and `config` fields are instrumentation/configuration only and are
elided). -/
structure MessageRouter where
  router : WMRouter
deriving DecidableEq, Repr

/-- Wrapped handler function built by AddHandler (router.go lines 58–66): call
the handler; on error return no messages and the error; on success return the
singleton list holding the received (possibly mutated) message. -/
def relayHandlerFunc (handle : Message → Option Err × Message) (msg : Message) :
    Option (List Message) × Option Err :=
  match handle msg with
  | (some e, _) => (none, some e)
  | (none, m) => (some [m], none)

/-- Wrapped handler function built by AddNoPublisherHandler (router.go lines
79–81): just the handler's error. -/
def noPublishHandlerFunc (handle : Message → Option Err × Message)
    (msg : Message) : Option Err :=
  (handle msg).1

/-- messageRouter.AddHandler (router.go): guard against a running router, then
register the relay handler with the wrapped router. The subscriber, publisher
and handler arguments only flow into the wrapped router; the handler wrapping
is modelled separately by `relayHandlerFunc`. -/
def MessageRouter.AddHandler (r : MessageRouter)
    (handlerName subscribeTopic publishTopic : String) :
    MessageRouter × Option Err :=
  if r.router.isRunning then
    (r, some (syserrNew ErrCode.invalidArgumentCode
      "cannot add handler to running router"))
  else
    ({ router := wmAddHandler r.router
        ⟨handlerName, subscribeTopic, some publishTopic⟩ }, none)

/-- messageRouter.AddNoPublisherHandler (router.go): same guard; registers a
consumer-only handler (no publish topic). -/
def MessageRouter.AddNoPublisherHandler (r : MessageRouter)
    (handlerName subscribeTopic : String) : MessageRouter × Option Err :=
  if r.router.isRunning then
    (r, some (syserrNew ErrCode.invalidArgumentCode
      "cannot add handler to running router"))
  else
    ({ router := wmAddNoPublisherHandler r.router handlerName subscribeTopic },
      none)

/-- messageRouter.AddPlugin (router.go): forwards unconditionally to the
wrapped router; note there is no running-state guard and no error return. -/
def MessageRouter.AddPlugin (r : MessageRouter) (pl : Nat) : MessageRouter :=
  { router := wmAddPlugin r.router pl }

/-- messageRouter.AddMiddleware (router.go): forwards unconditionally to the
wrapped router; note there is no running-state guard and no error return. -/
def MessageRouter.AddMiddleware (r : MessageRouter) (mw : Nat) : MessageRouter :=
  { router := wmAddMiddleware r.router mw }

/-- messageRouter.Run (router.go): run the wrapped router, wrapping any error. -/
def MessageRouter.Run (r : MessageRouter) : MessageRouter × Option Err :=
  match wmRun r.router with
  | (r2, some e) => ({ router := r2 }, some (syserrWrapAsIs e "router run failed"))
  | (r2, none) => ({ router := r2 }, none)

/-- messageRouter.Running (router.go): reflects the wrapped router's state. -/
def MessageRouter.Running (r : MessageRouter) : Bool :=
  r.router.isRunning

/-- messageRouter.Close (router.go): close the wrapped router, wrapping any
error. -/
def MessageRouter.Close (r : MessageRouter) : MessageRouter × Option Err :=
  match wmClose r.router with
  | (r2, some e) =>
      ({ router := r2 }, some (syserrWrapAsIs e "failed to close router"))
  | (r2, none) => ({ router := r2 }, none)

/-- Context passed to Publish, modelled with its cancellation flag. -/
structure Context where
  cancelled : Bool
deriving DecidableEq, Repr

/-- messagePublisher.Publish (router.go lines 147–160): log, call the wrapped
transport publisher (which takes no context), wrap any error. The `ctx`
argument is received but never used, exactly as in the source. -/
def messagePublisherPublish (transport : String → Message → Option Err)
    (ctx : Context) (topic : String) (msg : Message) :
    List String × Option Err :=
  let logLines := ["Publishing message " ++ topic ++ " " ++ msg.uuid]
  match transport topic msg with
  | some e => (logLines, some (syserrWrapAsIs e "failed to publish message"))
  | none => (logLines, none)

/-- generateEventTopic from messaging NewBus: fmt.Sprintf("events.%s", n). -/
def generateEventTopic (eventName : String) : String :=
  "events." ++ eventName

/-- generateCommandTopic from messaging NewBus: fmt.Sprintf("commands.%s", n). -/
def generateCommandTopic (commandName : String) : String :=
  "commands." ++ commandName

/-- OnSend hook of the command bus config (NewBus): log, stamp the "sent_at"
metadata entry with the current time, return nil. `now` stands for
time.Now().String(). Output: (log lines, updated message, returned error). -/
def commandBusOnSend (now commandName : String) (msg : Message) :
    List String × Message × Option Err :=
  (["Sending command " ++ commandName],
   { msg with metadata := metadataSet msg.metadata "sent_at" now },
   none)

/-- OnPublish hook of the event bus config (NewBus): log, stamp the
"published_at" metadata entry, return nil. -/
def eventBusOnPublish (now eventName : String) (msg : Message) :
    List String × Message × Option Err :=
  (["Publishing event " ++ eventName],
   { msg with metadata := metadataSet msg.metadata "published_at" now },
   none)

/-- OnHandle hook of the command processor config (NewBus): invoke the wrapped
handler, log the name, elapsed duration and error, and return the handler's
error unchanged. Durations are outside this untimed model. -/
def commandOnHandle {α : Type} (handle : α → Option Err) (commandName : String)
    (cmd : α) : List String × Option Err :=
  (["Command handled " ++ commandName], handle cmd)

/-- OnHandle hook of the event processor config (NewBus): same shape as the
command one. -/
def eventOnHandle {α : Type} (handle : α → Option Err) (eventName : String)
    (evt : α) : List String × Option Err :=
  (["Event handled " ++ eventName], handle evt)

/-- Command handler registry of the wrapped cqrs CommandProcessor: registered
(command name, handler id) pairs in registration order. -/
structure CommandProcessor where
  handlers : List (String × Nat)
deriving DecidableEq, Repr

/-- Registry lookup: the handler registered for a command name, if any. -/
def CommandProcessor.lookup (p : CommandProcessor) (name : String) : Option Nat :=
  (p.handlers.find? (fun q => q.1 == name)).map (fun q => q.2)

/-- Modelled from the spec: cqrs CommandProcessor.AddHandler (Watermill source
not in this repository) — registering a second handler for an already
registered command name fails with a duplicate-registration error and leaves
the registry unchanged; otherwise the registration is appended (spec §3, §4.2,
§7). -/
def cqrsProcessorAddHandler (p : CommandProcessor) (name : String) (h : Nat) :
    CommandProcessor × Option Err :=
  if p.handlers.any (fun q => q.1 == name) then
    (p, some (syserrNew ErrCode.invalidArgumentCode
      ("duplicate command handler for name " ++ name)))
  else
    ({ handlers := p.handlers ++ [(name, h)] }, none)

/-- Event handler registry of the wrapped cqrs EventProcessor: duplicates are
permitted and accumulate (spec §3). -/
structure EventProcessor where
  handlers : List (String × Nat)
deriving DecidableEq, Repr

/-- Modelled from the spec: cqrs EventProcessor.AddHandler — event handler
registrations accumulate, duplicate names allowed (spec §4.2). -/
def cqrsEventProcessorAddHandler (p : EventProcessor) (name : String) (h : Nat) :
    EventProcessor × Option Err :=
  ({ handlers := p.handlers ++ [(name, h)] }, none)

/-- cqrsBus from messaging (part_002): registry state of the bus. The command
bus, event bus, router, logger and marshaler fields are modelled separately
(topic generators, hooks and the Send pipeline below). -/
structure CqrsBus where
  commandProcessor : CommandProcessor
  eventProcessor : EventProcessor
deriving DecidableEq, Repr

/-- cqrsBus.RegisterCommandHandler (part_002 lines 178–185): delegate to the
command processor's AddHandler; surface its error, otherwise nil. -/
def CqrsBus.RegisterCommandHandler (b : CqrsBus) (commandName : String)
    (handler : Nat) : CqrsBus × Option Err :=
  match cqrsProcessorAddHandler b.commandProcessor commandName handler with
  | (_, some e) => (b, some e)
  | (p2, none) => ({ b with commandProcessor := p2 }, none)

/-- cqrsBus.RegisterEventHandler (part_002 lines 187–194). -/
def CqrsBus.RegisterEventHandler (b : CqrsBus) (eventName : String)
    (handler : Nat) : CqrsBus × Option Err :=
  match cqrsEventProcessorAddHandler b.eventProcessor eventName handler with
  | (_, some e) => (b, some e)
  | (p2, none) => ({ b with eventProcessor := p2 }, none)

/-- Modelled from the spec: cqrs CommandBus.Send (spec §4.3) — serialize the
domain value into an envelope payload, invoke the pre-send hook (which may
stamp metadata), and publish the resulting envelope to the topic produced by
the naming strategy. Returns the list of (topic, envelope) publish calls and
the error. `newUUID` stands for the generated envelope identity. -/
def cqrsCommandBusSend {α : Type} (marshal : α → List Nat)
    (genTopic : String → String)
    (onSend : String → Message → List String × Message × Option Err)
    (newUUID commandName : String) (cmd : α) :
    List (String × Message) × Option Err :=
  let msg : Message := ⟨newUUID, marshal cmd, []⟩
  match onSend commandName msg with
  | (_, _, some e) => ([], some e)
  | (_, m2, none) => ([(genTopic commandName, m2)], none)

/-- cqrsBus.PublishCommand (part_002 lines 170–172): commandBus.Send with the
configuration installed by NewBus — the command topic strategy and the
sent_at-stamping OnSend hook. `marshal` stands for the configured JSON
marshaler applied to the domain value. -/
def PublishCommand {α : Type} (marshal : α → List Nat)
    (newUUID now commandName : String) (cmd : α) :
    List (String × Message) × Option Err :=
  cqrsCommandBusSend marshal generateCommandTopic
    (fun name msg => commandBusOnSend now name msg) newUUID commandName cmd

/-- Concrete sample message used by witnesses. -/
def msg0 : Message := { uuid := "m-0", payload := [], metadata := [] }

/-- Concrete freshly created (never run) router used by witnesses. -/
def router0 : MessageRouter :=
  { router := { handlers := [], middlewares := [], plugins := [],
                lifecycle := WMLifecycle.created } }

/-- Concrete running router used by the C1 counterexample and witness. -/
def runningRouter0 : MessageRouter :=
  { router := { handlers := [], middlewares := [], plugins := [],
                lifecycle := WMLifecycle.running } }

/-- Concrete bus with one registered command handler, used by the C2 witness. -/
def bus0 : CqrsBus :=
  { commandProcessor := { handlers := [("CreateOrder", 1)] },
    eventProcessor := { handlers := [] } }

/-- Claim C3: in transform mode, a handler that returns success causes the
wrapped handler function to return exactly the singleton list containing the
received (possibly mutated in place) envelope, with no error. -/
theorem c3_relay_pass_through (handle : Message → Option Err × Message)
    (msg m : Message) (h : handle msg = (none, m)) :
    relayHandlerFunc handle msg = (some [m], none) := by
  simp [relayHandlerFunc, h]

/-- Witness for C3 at the identity handler and a concrete message. -/
theorem c3_witness :
    relayHandlerFunc (fun m => ((none : Option Err), m)) msg0 =
      (some [msg0], none) :=
  c3_relay_pass_through (fun m => ((none : Option Err), m)) msg0 msg0 rfl

/-- Claim C4: in transform mode the wrapped handler function returns no
messages together with error `e` exactly when the handler fails with `e`, so
nothing is published on handler failure. -/
theorem c4_relay_error_no_publish (handle : Message → Option Err × Message)
    (msg : Message) (e : Err) :
    relayHandlerFunc handle msg = (none, some e) ↔ (handle msg).1 = some e := by
  rcases hm : handle msg with ⟨e?, m⟩
  cases e? <;> simp [relayHandlerFunc, hm]

/-- Claim C5: the default topic naming strategy maps command name `n` to
"commands." ++ n and event name `n` to "events." ++ n; in particular
"CreateOrder" ↦ "commands.CreateOrder" and "OrderCreated" ↦
"events.OrderCreated"; and the mapping is pure — equal names yield equal
topics. -/
theorem c5_default_topic_naming :
    (∀ n : String, generateCommandTopic n = "commands." ++ n) ∧
    (∀ n : String, generateEventTopic n = "events." ++ n) ∧
    generateCommandTopic "CreateOrder" = "commands.CreateOrder" ∧
    generateEventTopic "OrderCreated" = "events.OrderCreated" ∧
    (∀ n m : String, n = m → generateCommandTopic n = generateCommandTopic m) ∧
    (∀ n m : String, n = m → generateEventTopic n = generateEventTopic m) :=
  ⟨fun _ => rfl, fun _ => rfl, rfl, rfl,
   fun _ _ h => by rw [h], fun _ _ h => by rw [h]⟩

/-- Claim C6: the hooks do not alter the dispatch outcome — each OnHandle hook
returns exactly the error produced by the handler invocation it wraps, and the
OnSend/OnPublish hooks always return success. -/
theorem c6_hooks_preserve_outcome {α β : Type}
    (ch : α → Option Err) (eh : β → Option Err) (c : α) (e : β)
    (now cn en : String) (msg : Message) :
    (commandOnHandle ch cn c).2 = ch c ∧
    (eventOnHandle eh en e).2 = eh e ∧
    (commandBusOnSend now cn msg).2.2 = none ∧
    (eventBusOnPublish now en msg).2.2 = none :=
  ⟨rfl, rfl, rfl, rfl⟩

/-- Claim C7: PublishCommand serializes the domain value into the envelope
payload, stamps the "sent_at" metadata entry via the pre-send hook, and
publishes exactly one envelope to the topic produced by the command naming
strategy; the stamped entry is retrievable and holds the send time. -/
theorem c7_publish_command_pipeline {α : Type} (marshal : α → List Nat)
    (newUUID now commandName : String) (cmd : α) :
    PublishCommand marshal newUUID now commandName cmd =
      ([("commands." ++ commandName,
         { uuid := newUUID, payload := marshal cmd,
           metadata := metadataSet [] "sent_at" now })], none) ∧
    metadataGet (metadataSet [] "sent_at" now) "sent_at" = some now :=
  ⟨rfl, by simp [metadataGet, metadataSet]⟩

/-- Claim C9: messagePublisher.Publish ignores its context argument — for any
two contexts the call invokes the wrapped transport identically and returns
the same result. -/
theorem c9_publish_ignores_context (transport : String → Message → Option Err)
    (c1 c2 : Context) (topic : String) (msg : Message) :
    messagePublisherPublish transport c1 topic msg =
      messagePublisherPublish transport c2 topic msg := rfl

/-- Claim C10: whenever the router is not running, AddHandler and
AddNoPublisherHandler return nil — there is no other error path on the
non-running branch. -/
theorem c10_not_running_add_returns_nil (r : MessageRouter)
    (hn st pt : String) (h : r.Running = false) :
    (r.AddHandler hn st pt).2 = none ∧
    (r.AddNoPublisherHandler hn st).2 = none := by
  have h2 : r.router.isRunning = false := h
  simp [MessageRouter.AddHandler, MessageRouter.AddNoPublisherHandler, h2]

/-- Witness for C10 at a concrete non-running router. -/
theorem c10_witness :
    (router0.AddHandler "h" "in" "out").2 = none ∧
    (router0.AddNoPublisherHandler "h" "in").2 = none :=
  c10_not_running_add_returns_nil router0 "h" "in" "out" (by decide)

/-- Counterexample to C1 as stated: on a running router, AddMiddleware does
not fail and does not leave the router state unchanged — it appends to the
middleware chain (and it has no error return at all). -/
theorem c1_counterexample :
    runningRouter0.Running = true ∧
    (runningRouter0.AddMiddleware 0).router ≠ runningRouter0.router := by
  decide

/-- Claim C1 (amended): while Running() is true, AddHandler and
AddNoPublisherHandler fail and leave the router state unchanged; AddMiddleware
and AddPlugin, which have no running-state guard and no error return, append
to the middleware chain and plugin list unconditionally. -/
theorem c1_amended_registration_frozen (r : MessageRouter)
    (hn st pt : String) (mw pl : Nat) (h : r.Running = true) :
    (r.AddHandler hn st pt).2.isSome ∧ (r.AddHandler hn st pt).1 = r ∧
    (r.AddNoPublisherHandler hn st).2.isSome ∧
    (r.AddNoPublisherHandler hn st).1 = r ∧
    (r.AddMiddleware mw).router.middlewares = r.router.middlewares ++ [mw] ∧
    (r.AddPlugin pl).router.plugins = r.router.plugins ++ [pl] := by
  have h2 : r.router.isRunning = true := h
  simp [MessageRouter.AddHandler, MessageRouter.AddNoPublisherHandler,
    MessageRouter.AddMiddleware, MessageRouter.AddPlugin,
    wmAddMiddleware, wmAddPlugin, h2]

/-- Witness for C1 (amended) at a concrete running router. -/
theorem c1_witness :
    ((runningRouter0.AddHandler "h" "in" "out").2.isSome ∧
     (runningRouter0.AddHandler "h" "in" "out").1 = runningRouter0 ∧
     (runningRouter0.AddNoPublisherHandler "h" "in").2.isSome ∧
     (runningRouter0.AddNoPublisherHandler "h" "in").1 = runningRouter0 ∧
     (runningRouter0.AddMiddleware 7).router.middlewares =
       runningRouter0.router.middlewares ++ [7] ∧
     (runningRouter0.AddPlugin 9).router.plugins =
       runningRouter0.router.plugins ++ [9]) :=
  c1_amended_registration_frozen runningRouter0 "h" "in" "out" 7 9 (by decide)

/-- Claim C2: registering a second command handler for an already registered
name fails with a duplicate-registration error and leaves the registry — in
particular the original registration for that name — intact. -/
theorem c2_duplicate_command_handler (b : CqrsBus) (n : String) (h1 h2 : Nat)
    (h : b.commandProcessor.lookup n = some h1) :
    ((b.RegisterCommandHandler n h2).2).isSome ∧
    (b.RegisterCommandHandler n h2).1 = b ∧
    (b.RegisterCommandHandler n h2).1.commandProcessor.lookup n = some h1 := by
  have hany : b.commandProcessor.handlers.any (fun q => q.1 == n) = true := by
    rcases hf : b.commandProcessor.handlers.find? (fun q => q.1 == n) with _ | q
    · simp [CommandProcessor.lookup, hf] at h
    · have hp := List.find?_some hf
      exact List.any_eq_true.mpr ⟨q, List.mem_of_find?_eq_some hf, hp⟩
  refine ⟨?_, ?_, ?_⟩ <;>
    simp [CqrsBus.RegisterCommandHandler, cqrsProcessorAddHandler, hany, h]

/-- Witness for C2 at a concrete bus that already maps "CreateOrder" to
handler 1. -/
theorem c2_witness :
    ((bus0.RegisterCommandHandler "CreateOrder" 2).2).isSome ∧
    (bus0.RegisterCommandHandler "CreateOrder" 2).1 = bus0 ∧
    (bus0.RegisterCommandHandler "CreateOrder" 2).1.commandProcessor.lookup
      "CreateOrder" = some 1 :=
  c2_duplicate_command_handler bus0 "CreateOrder" 1 2 (by decide)

/-- Claim C8: Close() on a router on which Run has not been started returns
without error and releases the consumption state (the router is not running
afterwards); Run on the closed instance fails with an error and does not
restart it. -/
theorem c8_close_before_run (r : MessageRouter)
    (h : r.router.lifecycle = WMLifecycle.created) :
    (r.Close).2 = none ∧ (r.Close).1.Running = false ∧
    ((r.Close).1.Run).2.isSome ∧ ((r.Close).1.Run).1.Running = false := by
  simp [MessageRouter.Close, MessageRouter.Run, MessageRouter.Running,
    wmClose, wmRun, WMRouter.isRunning]

/-- Witness for C8 at a concrete freshly created router. -/
theorem c8_witness :
    (router0.Close).2 = none ∧ (router0.Close).1.Running = false ∧
    ((router0.Close).1.Run).2.isSome ∧
    ((router0.Close).1.Run).1.Running = false :=
  c8_close_before_run router0 (by decide)
